import Mathlib

/-!
# Device Control Façade — verification of the HTTP endpoint handlers

Shallow embedding of `src/main.py`, a FastAPI service exposing endpoints for
system volume, mute state, display brightness and webcam capture.

Modelling conventions:
* `WINDOWS_LIBS_AVAILABLE` (computed once at import time) becomes the boolean
  parameter `avail` of each handler.
* The OS mixer is the state `MixerState` (scalar level as a rational, mute
  flag). `get_volume_interface` raising on an unsupported platform becomes the
  `avail = false` branch of each volume handler, which lands in the generic
  `except` clause of the source and so yields status 500 with the error text
  of the raised exception.
* Scalar volume levels are rationals; the Python literal `0.1` is modelled as
  the rational `1/10` and the format `:.2f` is modelled by `fmt2`
  (round-half-even to hundredths, printed with two digits after the point).
* The camera, filesystem and clock are external collaborators: `CameraEnv`
  fixes their behaviour for one request (does the device open, does it yield a
  frame, does the output directory exist, does the image write raise), and a
  `CaptureTrace` records the externally visible effects of the handler (was
  the device released, which write calls were issued, which files actually
  appeared on disk, which directories the program created).  `cv2.imwrite`
  returns a success boolean and creates the file exactly when it succeeds; a
  missing output directory makes it report failure without raising.
-/

namespace DeviceControl

/-- State of the OS audio mixer: master scalar volume and mute flag. -/
structure MixerState where
  level : ℚ
  muted : Bool
deriving DecidableEq, Repr

/-- JSON response of a volume endpoint together with the mixer state after
the request (the handler writes the mixer through
`SetMasterVolumeLevelScalar` / `SetMute`). -/
structure VolumeResponse where
  status : Nat
  message : Option String
  error : Option String
  mixer : MixerState
deriving DecidableEq, Repr

/-- Round a rational to hundredths with ties to even, the rounding `:.2f`
performs. -/
def round2 (q : ℚ) : ℤ :=
  let n : ℤ := ⌊q * 100⌋
  let r : ℚ := q * 100 - n
  if r < 1/2 then n
  else if 1/2 < r then n + 1
  else if n % 2 = 0 then n else n + 1

/-- Model of the Python format `:.2f` for the nonnegative scalar volumes this
service prints. -/
def fmt2 (q : ℚ) : String :=
  let h := round2 q
  toString (h / 100) ++ "." ++ (if h % 100 < 10 then "0" else "") ++ toString (h % 100)

/-- `POST /volume/up`: read the current scalar level, write
`min(current + 0.1, 1.0)` back, report the new value to two decimals.
When the platform libraries are absent `get_volume_interface` raises and the
generic handler returns status 500. -/
def volume_up (avail : Bool) (s : MixerState) : VolumeResponse :=
  if avail = false then
    { status := 500, message := none,
      error := some "Volume control not available on this platform", mixer := s }
  else
    let current := s.level
    let newLevel := min (current + 1/10) 1
    { status := 200, message := some ("Volume increased to " ++ fmt2 newLevel),
      error := none, mixer := { s with level := newLevel } }

/-- `POST /volume/down`: read the current scalar level, write
`max(current - 0.1, 0.0)` back, report the new value to two decimals. -/
def volume_down (avail : Bool) (s : MixerState) : VolumeResponse :=
  if avail = false then
    { status := 500, message := none,
      error := some "Volume control not available on this platform", mixer := s }
  else
    let current := s.level
    let newLevel := max (current - 1/10) 0
    { status := 200, message := some ("Volume decreased to " ++ fmt2 newLevel),
      error := none, mixer := { s with level := newLevel } }

/-- `POST /volume/mute`: unconditional `SetMute(1, None)`. -/
def mute (avail : Bool) (s : MixerState) : VolumeResponse :=
  if avail = false then
    { status := 500, message := none,
      error := some "Volume control not available on this platform", mixer := s }
  else
    { status := 200, message := some "Volume muted", error := none,
      mixer := { s with muted := true } }

/-- `POST /volume/unmute`: unconditional `SetMute(0, None)`. -/
def unmute (avail : Bool) (s : MixerState) : VolumeResponse :=
  if avail = false then
    { status := 500, message := none,
      error := some "Volume control not available on this platform", mixer := s }
  else
    { status := 200, message := some "Volume unmuted", error := none,
      mixer := { s with muted := false } }

/-- JSON response of a brightness endpoint together with the brightness of
display 0 after the request. -/
structure BrightnessResponse where
  status : Nat
  message : Option String
  error : Option String
  brightness : ℤ
deriving DecidableEq, Repr

/-- `POST /brightness/up`: explicit 501 when the platform libraries are
absent; otherwise read the brightness of display 0, write
`min(current + 10, 100)` and report the new integer percent. -/
def brightness_up (avail : Bool) (current : ℤ) : BrightnessResponse :=
  if avail = false then
    { status := 501, message := none,
      error := some "Brightness control not available on this platform",
      brightness := current }
  else
    let new_brightness := min (current + 10) 100
    { status := 200,
      message := some ("Brightness increased to " ++ toString new_brightness ++ "%"),
      error := none, brightness := new_brightness }

/-- `POST /brightness/down`: explicit 501 when the platform libraries are
absent; otherwise write `max(current - 10, 0)`. -/
def brightness_down (avail : Bool) (current : ℤ) : BrightnessResponse :=
  if avail = false then
    { status := 501, message := none,
      error := some "Brightness control not available on this platform",
      brightness := current }
  else
    let new_brightness := max (current - 10) 0
    { status := 200,
      message := some ("Brightness decreased to " ++ toString new_brightness ++ "%"),
      error := none, brightness := new_brightness }

/-- Response of `GET /`. -/
structure RootResponse where
  status : Nat
  message : String
  platform : String
  windows_features_available : Bool
  endpoints : List String
deriving DecidableEq, Repr

/-- `GET /`: pure report of the platform name, the capability flag and the
enabled endpoint paths; no side effect, always status 200. -/
def root (platformName : String) (avail : Bool) : RootResponse :=
  let available_endpoints := ["/take_picture"]
  let available_endpoints :=
    if avail then
      available_endpoints ++
        ["/volume/up", "/volume/down", "/volume/mute", "/volume/unmute",
         "/brightness/up", "/brightness/down"]
    else available_endpoints
  { status := 200, message := "Device Control API is running",
    platform := platformName, windows_features_available := avail,
    endpoints := available_endpoints }

/-- External behaviour of the camera, the filesystem and the image encoder
for one `take_picture` request. -/
structure CameraEnv where
  /-- does `camera.isOpened()` hold after `cv2.VideoCapture(0)` -/
  opens : Bool
  /-- the `ret` boolean of `camera.read()` -/
  hasFrame : Bool
  /-- does the relative directory `captured_images/` exist when the handler
  runs; `cv2.imwrite` creates the file and reports success exactly when it
  does, and reports failure without raising when it does not -/
  dirExists : Bool
  /-- does `cv2.imwrite` raise an exception instead of returning a boolean -/
  writeRaises : Bool
  /-- `str(e)` of the exception raised by `cv2.imwrite` when `writeRaises` -/
  raiseMsg : String
deriving DecidableEq, Repr

/-- The wall-clock instant `datetime.now()` observed by the handler. -/
structure Timestamp where
  year : Nat
  month : Nat
  day : Nat
  hour : Nat
  minute : Nat
  second : Nat
deriving DecidableEq, Repr

/-- The component ranges `datetime` guarantees (its year is between 1 and
9999; we ask for a four-digit year, which `datetime.now` always yields). -/
def validTimestamp (t : Timestamp) : Prop :=
  1000 ≤ t.year ∧ t.year ≤ 9999 ∧ 1 ≤ t.month ∧ t.month ≤ 12 ∧
    1 ≤ t.day ∧ t.day ≤ 31 ∧ t.hour ≤ 23 ∧ t.minute ≤ 59 ∧ t.second ≤ 59

instance (t : Timestamp) : Decidable (validTimestamp t) := by
  unfold validTimestamp; infer_instance

/-- The character for the decimal digit `n` (for `n < 10`). -/
def digitChar (n : Nat) : Char := Char.ofNat (48 + n)

/-- Two-digit zero-padded decimal rendering, as strftime formats the month,
day, hour, minute and second fields. -/
def pad2chars (n : Nat) : List Char :=
  [digitChar (n / 10 % 10), digitChar (n % 10)]

/-- Four-digit zero-padded decimal rendering, as strftime formats the year
field for the years `datetime` admits. -/
def pad4chars (n : Nat) : List Char :=
  [digitChar (n / 1000 % 10), digitChar (n / 100 % 10),
   digitChar (n / 10 % 10), digitChar (n % 10)]

/-- Model of `datetime.now().strftime` with the format `%Y%m%d_%H%M%S`. -/
def strftimeYmdHms (t : Timestamp) : String :=
  String.mk (pad4chars t.year ++ pad2chars t.month ++ pad2chars t.day ++
    '_' :: (pad2chars t.hour ++ pad2chars t.minute ++ pad2chars t.second))

/-- JSON response of `POST /take_picture`. -/
structure CaptureResponse where
  status : Nat
  message : Option String
  file : Option String
  error : Option String
deriving DecidableEq, Repr

/-- Externally visible effects of one `take_picture` request. -/
structure CaptureTrace where
  /-- the capture device was opened -/
  opened : Bool
  /-- `camera.release()` ran before the handler returned -/
  released : Bool
  /-- directories the handler created (the source creates none) -/
  dirsCreated : List String
  /-- paths passed to `cv2.imwrite` -/
  writeCalls : List String
  /-- paths at which a file actually appeared on disk -/
  filesCreated : List String
deriving DecidableEq, Repr

/-- `POST /take_picture`: open device 0; 500 if it does not open (no
release); read one frame, releasing and returning 500 when none is produced;
otherwise write the frame to a timestamped path under `captured_images/`
without checking the write result, release, and return the path.  An
exception raised by the write is caught by the outer handler, which returns
500 without releasing. -/
def take_picture (env : CameraEnv) (t : Timestamp) :
    CaptureResponse × CaptureTrace :=
  if env.opens = false then
    ({ status := 500, message := none, file := none,
       error := some "Camera not accessible" },
     { opened := false, released := false, dirsCreated := [],
       writeCalls := [], filesCreated := [] })
  else if env.hasFrame = false then
    ({ status := 500, message := none, file := none,
       error := some "Failed to capture image" },
     { opened := true, released := true, dirsCreated := [],
       writeCalls := [], filesCreated := [] })
  else
    let timestamp := strftimeYmdHms t
    let filename := "captured_images/captured_image_" ++ timestamp ++ ".jpg"
    if env.writeRaises then
      ({ status := 500, message := none, file := none,
         error := some env.raiseMsg },
       { opened := true, released := false, dirsCreated := [],
         writeCalls := [filename], filesCreated := [] })
    else
      ({ status := 200, message := some "Picture taken successfully",
         file := some filename, error := none },
       { opened := true, released := true, dirsCreated := [],
         writeCalls := [filename],
         filesCreated := if env.dirExists then [filename] else [] })

/-- A camera request in which everything works: the device opens, yields a
frame, the output directory exists, and the write returns normally. -/
def envOk : CameraEnv := ⟨true, true, true, false, ""⟩

/-- A camera request in which the device opens and yields a frame but the
output directory `captured_images/` does not exist, so the image write
reports failure without raising. -/
def envNoDir : CameraEnv := ⟨true, true, false, false, ""⟩

/-- A fixed clock instant used to instantiate the timestamp parameter. -/
def t0 : Timestamp := ⟨2026, 10, 12, 12, 0, 0⟩

/-- Formalization of the claim that, on any request that issues an image
write, the output directory already exists or was created by the program
beforehand. -/
def dirEnsuredBeforeWrite (env : CameraEnv) (t : Timestamp) : Prop :=
  (take_picture env t).2.writeCalls ≠ [] →
    env.dirExists = true ∨ (take_picture env t).2.dirsCreated ≠ []

/-- Formalization of the claim that a success response means exactly one
file was created on disk, with its path returned in the body. -/
def successCreatesOneFile (env : CameraEnv) (t : Timestamp) : Prop :=
  (take_picture env t).1.status = 200 →
    ∃ f, (take_picture env t).2.filesCreated = [f] ∧
      (take_picture env t).1.file = some f

/-- The character shape of a `%Y%m%d_%H%M%S` timestamp: eight decimal
digits, an underscore, six decimal digits — the regex d8 underscore d6. -/
def matchesTimestampDigits (l : List Char) : Prop :=
  ∃ a b, l = a ++ '_' :: b ∧ a.length = 8 ∧ b.length = 6 ∧
    (∀ c ∈ a, c.isDigit = true) ∧ (∀ c ∈ b, c.isDigit = true)

/-! ## Theorems -/

/-- Characters produced for single decimal digits are digit characters. -/
theorem digitChar_isDigit_of_lt (m : Nat) (hm : m < 10) :
    (digitChar m).isDigit = true := by
  interval_cases m <;> decide

/-- Every character of a two-digit zero-padded field is a decimal digit. -/
theorem mem_pad2chars_isDigit (n : Nat) :
    ∀ c ∈ pad2chars n, c.isDigit = true := by
  intro c hc
  simp only [pad2chars, List.mem_cons, List.not_mem_nil, or_false] at hc
  rcases hc with rfl | rfl <;>
    exact digitChar_isDigit_of_lt _ (Nat.mod_lt _ (by norm_num))

/-- Every character of a four-digit zero-padded field is a decimal digit. -/
theorem mem_pad4chars_isDigit (n : Nat) :
    ∀ c ∈ pad4chars n, c.isDigit = true := by
  intro c hc
  simp only [pad4chars, List.mem_cons, List.not_mem_nil, or_false] at hc
  rcases hc with rfl | rfl | rfl | rfl <;>
    exact digitChar_isDigit_of_lt _ (Nat.mod_lt _ (by norm_num))

/-- The strftime model always yields the d8 underscore d6 character shape. -/
theorem strftimeYmdHms_matches (t : Timestamp) :
    matchesTimestampDigits (strftimeYmdHms t).data := by
  refine ⟨pad4chars t.year ++ pad2chars t.month ++ pad2chars t.day,
    pad2chars t.hour ++ pad2chars t.minute ++ pad2chars t.second, ?_, ?_, ?_, ?_, ?_⟩
  · show (String.mk _).data = _
    simp [strftimeYmdHms, pad4chars, pad2chars]
  · simp [pad4chars, pad2chars]
  · simp [pad2chars]
  · intro c hc
    simp only [List.mem_append] at hc
    rcases hc with (hc | hc) | hc
    · exact mem_pad4chars_isDigit _ c hc
    · exact mem_pad2chars_isDigit _ c hc
    · exact mem_pad2chars_isDigit _ c hc
  · intro c hc
    simp only [List.mem_append] at hc
    rcases hc with (hc | hc) | hc
    · exact mem_pad2chars_isDigit _ c hc
    · exact mem_pad2chars_isDigit _ c hc
    · exact mem_pad2chars_isDigit _ c hc

/-- Splitting the capture path at the directory separator. -/
theorem capture_filename_split (ts : String) :
    "captured_images/captured_image_" ++ ts ++ ".jpg" =
      "captured_images/" ++ ("captured_image_" ++ ts ++ ".jpg") := by
  apply String.ext
  have h : ("captured_images/captured_image_" : String).data =
      ("captured_images/" : String).data ++ ("captured_image_" : String).data := rfl
  show ("captured_images/captured_image_" : String).data ++ ts.data ++
      (".jpg" : String).data =
    ("captured_images/" : String).data ++ (("captured_image_" : String).data ++
      ts.data ++ (".jpg" : String).data)
  rw [h]
  simp only [List.append_assoc]

/-- C1: for every current scalar volume level v in [0,1], `volume_up` writes
min(v + 0.10, 1.0) back to the mixer and returns the success message carrying
that value formatted to two decimal places, `volume_down` writes
max(v - 0.10, 0.0) and reports it likewise, and both written values stay in
[0.0, 1.0]. -/
theorem volume_step_clamped (v : ℚ) (m : Bool) (h0 : 0 ≤ v) (h1 : v ≤ 1) :
    (volume_up true ⟨v, m⟩).mixer.level = min (v + 1/10) 1 ∧
    (volume_down true ⟨v, m⟩).mixer.level = max (v - 1/10) 0 ∧
    0 ≤ (volume_up true ⟨v, m⟩).mixer.level ∧
    (volume_up true ⟨v, m⟩).mixer.level ≤ 1 ∧
    0 ≤ (volume_down true ⟨v, m⟩).mixer.level ∧
    (volume_down true ⟨v, m⟩).mixer.level ≤ 1 ∧
    (volume_up true ⟨v, m⟩).message =
      some ("Volume increased to " ++ fmt2 (min (v + 1/10) 1)) ∧
    (volume_down true ⟨v, m⟩).message =
      some ("Volume decreased to " ++ fmt2 (max (v - 1/10) 0)) := by
  refine ⟨rfl, rfl, ?_, ?_, ?_, ?_, rfl, rfl⟩
  · show (0:ℚ) ≤ min (v + 1/10) 1
    exact le_min (by linarith) (by norm_num)
  · show min (v + 1/10) 1 ≤ (1:ℚ)
    exact min_le_right _ _
  · show (0:ℚ) ≤ max (v - 1/10) 0
    exact le_max_right _ _
  · show max (v - 1/10) 0 ≤ (1:ℚ)
    exact max_le (by linarith) (by norm_num)

/-- Witness for C1 at v = 1/2: the new level is min(0.6, 1) and the message
renders it as "0.60". -/
theorem volume_step_clamped_witness :
    (volume_up true ⟨1/2, false⟩).mixer.level = min (1/2 + 1/10) 1 ∧
    (volume_up true ⟨1/2, false⟩).message = some "Volume increased to 0.60" := by
  have h := volume_step_clamped (1/2) false (by norm_num) (by norm_num)
  refine ⟨h.1, ?_⟩
  rw [h.2.2.2.2.2.2.1]
  have hm : min ((1:ℚ)/2 + 1/10) 1 = 3/5 := by norm_num
  have h60 : round2 (3/5) = 60 := by norm_num [round2]
  rw [hm]
  simp only [fmt2, h60]
  decide

/-- C4: for every current brightness percentage b of display 0 in [0,100],
`brightness_up` writes min(b + 10, 100) and `brightness_down` writes
max(b - 10, 0); the written value stays in [0,100] and the message reports
it as an integer percent. -/
theorem brightness_step_clamped (b : ℤ) (h0 : 0 ≤ b) (h1 : b ≤ 100) :
    (brightness_up true b).brightness = min (b + 10) 100 ∧
    (brightness_down true b).brightness = max (b - 10) 0 ∧
    0 ≤ (brightness_up true b).brightness ∧
    (brightness_up true b).brightness ≤ 100 ∧
    0 ≤ (brightness_down true b).brightness ∧
    (brightness_down true b).brightness ≤ 100 ∧
    (brightness_up true b).message =
      some ("Brightness increased to " ++ toString (min (b + 10) 100) ++ "%") ∧
    (brightness_down true b).message =
      some ("Brightness decreased to " ++ toString (max (b - 10) 0) ++ "%") := by
  refine ⟨rfl, rfl, ?_, ?_, ?_, ?_, rfl, rfl⟩
  · show (0:ℤ) ≤ min (b + 10) 100
    exact le_min (by linarith) (by norm_num)
  · show min (b + 10) 100 ≤ (100:ℤ)
    exact min_le_right _ _
  · show (0:ℤ) ≤ max (b - 10) 0
    exact le_max_right _ _
  · show max (b - 10) 0 ≤ (100:ℤ)
    exact max_le (by linarith) (by norm_num)

/-- Witness for C4 at b = 95: the written value is min(105, 100) = 100 and
the message reads "Brightness increased to 100%". -/
theorem brightness_step_clamped_witness :
    (brightness_up true 95).brightness = min (95 + 10) 100 ∧
    (brightness_up true 95).message = some "Brightness increased to 100%" := by
  have h := brightness_step_clamped 95 (by norm_num) (by norm_num)
  refine ⟨h.1, ?_⟩
  rw [h.2.2.2.2.2.2.1]
  have hm : min ((95:ℤ) + 10) 100 = 100 := by norm_num
  rw [hm]
  decide

/-- C5: with the platform libraries absent, every volume endpoint answers
500 with the feature-unavailable error text (raised inside
`get_volume_interface` and caught by the generic handler), while both
brightness endpoints answer 501 with an explanatory error body. -/
theorem unavailable_maps_500_volume_501_brightness (s : MixerState) (b : ℤ) :
    (volume_up false s).status = 500 ∧
    (volume_up false s).error =
      some "Volume control not available on this platform" ∧
    (volume_down false s).status = 500 ∧
    (volume_down false s).error =
      some "Volume control not available on this platform" ∧
    (mute false s).status = 500 ∧
    (mute false s).error =
      some "Volume control not available on this platform" ∧
    (unmute false s).status = 500 ∧
    (unmute false s).error =
      some "Volume control not available on this platform" ∧
    (brightness_up false b).status = 501 ∧
    (brightness_up false b).error =
      some "Brightness control not available on this platform" ∧
    (brightness_down false b).status = 501 ∧
    (brightness_down false b).error =
      some "Brightness control not available on this platform" :=
  ⟨rfl, rfl, rfl, rfl, rfl, rfl, rfl, rfl, rfl, rfl, rfl, rfl⟩

/-- C8: `root` is a pure function of the platform name and capability flag
(no side effect), always answers 200 with the platform identity, the flag,
and the endpoint list; when the flag is false the list is exactly
["/take_picture"], omitting every volume and brightness path. -/
theorem root_report (p : String) (b : Bool) :
    (root p b).status = 200 ∧
    (root p b).message = "Device Control API is running" ∧
    (root p b).platform = p ∧
    (root p b).windows_features_available = b ∧
    (root p false).endpoints = ["/take_picture"] ∧
    (root p true).endpoints =
      ["/take_picture", "/volume/up", "/volume/down", "/volume/mute",
       "/volume/unmute", "/brightness/up", "/brightness/down"] := by
  cases b <;> exact ⟨rfl, rfl, rfl, rfl, rfl, rfl⟩

/-- C9: `mute` and `unmute` are unconditional writes of the mute flag with
no read-before-write; whatever the prior state, the flag after a sequence
equals the value set by the last operation, and the written value does not
depend on the prior state (idempotent sets, not toggles). -/
theorem mute_unmute_unconditional_sets (s s2 : MixerState) :
    (mute true s).mixer.muted = true ∧
    (unmute true s).mixer.muted = false ∧
    (unmute true (mute true s).mixer).mixer.muted = false ∧
    (mute true (unmute true s).mixer).mixer.muted = true ∧
    (mute true s).mixer.muted = (mute true s2).mixer.muted ∧
    (unmute true s).mixer.muted = (unmute true s2).mixer.muted :=
  ⟨rfl, rfl, rfl, rfl, rfl, rfl⟩

/-- C6: when the device fails to open, `take_picture` answers 500 with the
"Camera not accessible" error and issues no write; when it opens but yields
no frame, the handler releases the device, answers 500, and still issues no
write. -/
theorem capture_failure_paths (t : Timestamp) (fr de wr : Bool) (msg : String) :
    (take_picture ⟨false, fr, de, wr, msg⟩ t).1.status = 500 ∧
    (take_picture ⟨false, fr, de, wr, msg⟩ t).1.error =
      some "Camera not accessible" ∧
    (take_picture ⟨false, fr, de, wr, msg⟩ t).2.writeCalls = [] ∧
    (take_picture ⟨false, fr, de, wr, msg⟩ t).2.filesCreated = [] ∧
    (take_picture ⟨true, false, de, wr, msg⟩ t).1.status = 500 ∧
    (take_picture ⟨true, false, de, wr, msg⟩ t).1.error =
      some "Failed to capture image" ∧
    (take_picture ⟨true, false, de, wr, msg⟩ t).2.released = true ∧
    (take_picture ⟨true, false, de, wr, msg⟩ t).2.writeCalls = [] ∧
    (take_picture ⟨true, false, de, wr, msg⟩ t).2.filesCreated = [] :=
  ⟨rfl, rfl, rfl, rfl, rfl, rfl, rfl, rfl, rfl⟩

/-- C2 is violated by the source: when the device opens, a frame is read and
the image write raises, the outer handler returns 500 without calling
release; likewise the failed-open exit carries no release call.  The theorem
evaluates the handler on every such execution. -/
theorem release_skipped_on_exception_and_failed_open (t : Timestamp)
    (fr de wr : Bool) (msg : String) :
    (take_picture ⟨true, true, de, true, msg⟩ t).2.opened = true ∧
    (take_picture ⟨true, true, de, true, msg⟩ t).2.released = false ∧
    (take_picture ⟨true, true, de, true, msg⟩ t).1.status = 500 ∧
    (take_picture ⟨true, true, de, true, msg⟩ t).1.error = some msg ∧
    (take_picture ⟨false, fr, de, wr, msg⟩ t).2.released = false :=
  ⟨rfl, rfl, rfl, rfl, rfl⟩

/-- C3 counterexample: with the output directory absent, the handler issues
a write without the directory existing and without creating it. -/
theorem dir_never_created_counterexample : ¬ dirEnsuredBeforeWrite envNoDir t0 := by
  intro h
  rcases h (by decide) with h1 | h2
  · exact absurd h1 (by decide)
  · exact h2 rfl

/-- C3 amended: every image write targets a path under `captured_images/`,
but the program never creates that directory (or any directory); it must
already exist for the write to succeed. -/
theorem writes_under_captured_images_dir_never_created (env : CameraEnv)
    (t : Timestamp) (f : String)
    (hf : f ∈ (take_picture env t).2.writeCalls) :
    (take_picture env t).2.dirsCreated = [] ∧
    ∃ rest, f = "captured_images/" ++ rest := by
  obtain ⟨o, fr, de, wr, m⟩ := env
  cases o
  · simp [take_picture] at hf
  · cases fr
    · simp [take_picture] at hf
    · cases wr <;>
      · simp [take_picture] at hf ⊢
        exact ⟨"captured_image_" ++ strftimeYmdHms t ++ ".jpg",
          by rw [hf]; exact capture_filename_split _⟩

/-- Witness for the amended C3 at a concrete successful request. -/
theorem writes_under_captured_images_witness :
    "captured_images/captured_image_20261012_120000.jpg" ∈
      (take_picture envOk t0).2.writeCalls ∧
    ((take_picture envOk t0).2.dirsCreated = [] ∧
     ∃ rest, "captured_images/captured_image_20261012_120000.jpg" =
       "captured_images/" ++ rest) :=
  ⟨by decide,
   writes_under_captured_images_dir_never_created envOk t0 _ (by decide)⟩

/-- C7 counterexample: with the output directory missing, the handler still
answers 200 with a file path, yet no file was created. -/
theorem success_creates_one_file_counterexample :
    ¬ successCreatesOneFile envNoDir t0 := by
  intro h
  obtain ⟨f, hf, -⟩ := h rfl
  have he : (take_picture envNoDir t0).2.filesCreated = [] := rfl
  rw [he] at hf
  exact List.noConfusion hf

/-- C7 amended: on a success response `take_picture` issues exactly one
image-write call, for a path under `captured_images/` whose base name is
`captured_image_` followed by a d8 underscore d6 timestamp and `.jpg`; that
path is returned in the body, and the file exists on disk exactly when the
output directory existed (the write result is unchecked). -/
theorem capture_success_write_call (env : CameraEnv) (t : Timestamp)
    (hs : (take_picture env t).1.status = 200) :
    ∃ base,
      (take_picture env t).2.writeCalls = ["captured_images/" ++ base] ∧
      (take_picture env t).1.file = some ("captured_images/" ++ base) ∧
      (∃ ts, base = "captured_image_" ++ ts ++ ".jpg" ∧
        matchesTimestampDigits ts.data) ∧
      (take_picture env t).2.filesCreated =
        (if env.dirExists then ["captured_images/" ++ base] else []) ∧
      (take_picture env t).1.message = some "Picture taken successfully" := by
  obtain ⟨o, fr, de, wr, m⟩ := env
  cases o
  · simp [take_picture] at hs
  · cases fr
    · simp [take_picture] at hs
    · cases wr
      · refine ⟨"captured_image_" ++ strftimeYmdHms t ++ ".jpg", ?_, ?_, ?_, ?_, rfl⟩
        · show ["captured_images/captured_image_" ++ strftimeYmdHms t ++ ".jpg"] = _
          rw [capture_filename_split]
        · show some ("captured_images/captured_image_" ++ strftimeYmdHms t ++ ".jpg") = _
          rw [capture_filename_split]
        · exact ⟨strftimeYmdHms t, rfl, strftimeYmdHms_matches t⟩
        · show (if de then
              ["captured_images/captured_image_" ++ strftimeYmdHms t ++ ".jpg"]
            else []) = _
          rw [capture_filename_split]
      · simp [take_picture] at hs

/-- Witness for the amended C7 at a concrete successful request. -/
theorem capture_success_write_call_witness :
    (take_picture envOk t0).1.status = 200 ∧
    (∃ base,
      (take_picture envOk t0).2.writeCalls = ["captured_images/" ++ base] ∧
      (take_picture envOk t0).1.file = some ("captured_images/" ++ base) ∧
      (∃ ts, base = "captured_image_" ++ ts ++ ".jpg" ∧
        matchesTimestampDigits ts.data) ∧
      (take_picture envOk t0).2.filesCreated =
        (if envOk.dirExists then ["captured_images/" ++ base] else []) ∧
      (take_picture envOk t0).1.message = some "Picture taken successfully") :=
  ⟨rfl, capture_success_write_call envOk t0 rfl⟩

/-- C10: the handler never checks the result of the image write; when the
device opens, a frame is read, and the write reports failure without raising
(the output directory is missing), it still answers 200 with the success
message and a path at which no file exists. -/
theorem unchecked_write_reports_success (t : Timestamp) (msg : String) :
    (take_picture ⟨true, true, false, false, msg⟩ t).1.status = 200 ∧
    (take_picture ⟨true, true, false, false, msg⟩ t).1.message =
      some "Picture taken successfully" ∧
    (take_picture ⟨true, true, false, false, msg⟩ t).1.file =
      some ("captured_images/captured_image_" ++ strftimeYmdHms t ++ ".jpg") ∧
    (take_picture ⟨true, true, false, false, msg⟩ t).2.writeCalls =
      ["captured_images/captured_image_" ++ strftimeYmdHms t ++ ".jpg"] ∧
    (take_picture ⟨true, true, false, false, msg⟩ t).2.filesCreated = [] :=
  ⟨rfl, rfl, rfl, rfl, rfl⟩

end DeviceControl
